import Mathlib

/-!
Verification of the claudekeeper attention-rendezvous and query-orchestration
core against its natural-language specification.

The development shallowly embeds the two relevant modules:

* `src/attention.ts` — the `AttentionManager` class (pending-decision
  registry): `add`, `waitForResolution`, `resolve`, `clearForSession`, and the
  three attention constructors.
* `src/query.ts` (the final revision of `QueryManager`) — `runQuery`'s
  message-consumption loop with the temporary-id to real-id identity swap,
  its `catch`/`finally` termination handling, and `interrupt`.

JavaScript `Map` objects are modelled as association lists with
JS-`Map`-faithful `get`/`set`/`delete` operations; JS string truthiness
(`undefined` and `""` are falsy) is modelled explicitly; values produced by
`randomBytes` and `Date` are taken as explicit parameters.  The broadcast
side effects and the records handed to the external `appendInteraction`
collaborator are returned as explicit output lists, in emission order.
-/

namespace Claudekeeper

/-- JS `Map.get`: first binding for the key, if any. -/
def mget {α : Type} : List (String × α) → String → Option α
  | [], _ => none
  | p :: rest, k => if p.1 = k then some p.2 else mget rest k

/-- JS `Map.set`: overwrite the binding in place if the key is present,
otherwise append a new binding (insertion order preserved). -/
def mset {α : Type} : List (String × α) → String → α → List (String × α)
  | [], k, v => [(k, v)]
  | p :: rest, k, v => if p.1 = k then (k, v) :: rest else p :: mset rest k v

/-- JS `Map.delete`: drop the binding for the key. -/
def mdelete {α : Type} : List (String × α) → String → List (String × α)
  | [], _ => []
  | p :: rest, k => if p.1 = k then mdelete rest k else p :: mdelete rest k

/-- Insert a key into a JS-`Map`-backed key set if absent (re-registering the
same key overwrites the stored callback, leaving the key set unchanged). -/
def rset (l : List String) (k : String) : List String :=
  if l.contains k then l else l ++ [k]

/-- JS truthiness of a `string | undefined` value: `undefined` and the empty
string are falsy. -/
def strTruthy : Option String → Bool
  | some s => ! (s = "")
  | none => false

/-- Normalize a `string | undefined` value to `some` exactly when truthy. -/
def truthy : Option String → Option String
  | some s => if s = "" then none else some s
  | none => none

/-- JS `a || b` on a `string | undefined` left operand: the right operand is
taken when the left is `undefined` or the empty string. -/
def jsOr : Option String → String → String
  | some s, d => if s = "" then d else s
  | none, d => d

/-- Whether `pat` occurs as a contiguous substring of the character list,
modelling JS `String.prototype.includes`. -/
def charsInclude (pat : List Char) : List Char → Bool
  | [] => pat.isEmpty
  | c :: rest => pat.isPrefixOf (c :: rest) || charsInclude pat rest

/-- JS `s.includes(pat)`. -/
def strContains (s pat : String) : Bool :=
  charsInclude pat.data s.data

/-- `Attention.type` from `types.ts`: `'permission' | 'error' | 'completion'`. -/
inductive AttentionType where
  | permission
  | error
  | completion
deriving DecidableEq, Repr

/-- The `Attention` interface from `types.ts`.  `toolInput` is an opaque JSON
value abstracted as a string; optional fields are `Option`s with `none`
standing for `undefined`. -/
structure Attention where
  id : String
  sessionId : String
  type : AttentionType
  toolName : Option String
  toolInput : Option String
  toolUseId : Option String
  message : Option String
  timestamp : String
deriving DecidableEq, Repr

/-- `createPermissionAttention` from `attention.ts`; the random id and the
clock reading are explicit parameters `id` and `ts`. -/
def createPermissionAttention (id ts sessionId toolName : String)
    (input : Option String) (toolUseId : String) : Attention :=
  ⟨id, sessionId, AttentionType.permission, some toolName, input, some toolUseId, none, ts⟩

/-- `createErrorAttention` from `attention.ts`. -/
def createErrorAttention (id ts sessionId message : String) : Attention :=
  ⟨id, sessionId, AttentionType.error, none, none, none, some message, ts⟩

/-- `createCompletionAttention` from `attention.ts`. -/
def createCompletionAttention (id ts sessionId message : String) : Attention :=
  ⟨id, sessionId, AttentionType.completion, none, none, none, some message, ts⟩

/-- The `AttentionResolution` interface as it reaches `resolve` at runtime:
the HTTP layer passes the parsed JSON body through unvalidated, so besides
the declared `behavior` and `message` fields the value may carry an extra
input field; `resolve` never reads it. -/
structure AttentionResolution where
  behavior : String
  message : Option String
  input : Option String
deriving DecidableEq, Repr

/-- The `ResolvedInteraction` interface from `types.ts`. -/
structure ResolvedInteraction where
  id : String
  type : AttentionType
  toolName : Option String
  toolInput : Option String
  resolution : String
  message : Option String
  resolvedAt : String
deriving DecidableEq, Repr

/-- An engine message as seen by `runQuery`'s loop: only its optional
`sessionId` field is inspected. -/
structure Msg where
  sessionId : Option String
deriving DecidableEq, Repr

/-- The closed set of events handed to the broadcast sink by the two
embedded modules.  `sessionCreated` abstracts the session payload to the
real session id it carries in both the lookup and the fallback branch. -/
inductive Event where
  | sessionMessage (sessionId : String) (message : Msg)
  | sessionCreated (sessionId : String) (tempId : String)
  | sessionEnded (sessionId : String) (reason : String)
  | attentionRequested (attention : Attention)
  | attentionResolved (attentionId : String)
  | interactionResolved (sessionId : String) (interaction : ResolvedInteraction)
deriving DecidableEq, Repr

/-- The SDK-facing payload built by `resolve` (lines 97-110 of
`attention.ts`): a record starting from `{behavior}` with `toolUseID`,
`updatedInput` and `message` added conditionally; `none` marks an absent
field. -/
structure SdkResult where
  behavior : String
  toolUseID : Option String
  updatedInput : Option String
  message : Option String
deriving DecidableEq, Repr

/-- The observable outcome of one `resolve` call: the returned boolean, the
records forwarded to `appendInteraction` (paired with their session id), the
events broadcast, and the payload delivered to the suspended awaiter (if a
resolver was registered). -/
structure ResolveOut where
  returned : Bool
  appended : List (String × ResolvedInteraction)
  events : List Event
  woken : Option SdkResult
deriving DecidableEq, Repr

/-- The state of an `AttentionManager`: the `pending` map, the key set of the
`resolvers` map, and whether the optional `broadcast` constructor argument
was supplied. -/
structure AttentionManager where
  pending : List (String × Attention)
  resolvers : List String
  hasBroadcast : Bool
deriving DecidableEq, Repr

/-- `AttentionManager.getPending`. -/
def getPending (m : AttentionManager) : List Attention :=
  m.pending.map (fun p => p.2)

/-- `AttentionManager.getById`. -/
def getById (m : AttentionManager) (id : String) : Option Attention :=
  mget m.pending id

/-- `AttentionManager.add`. -/
def add (m : AttentionManager) (attention : Attention) : AttentionManager :=
  ⟨mset m.pending attention.id attention, m.resolvers, m.hasBroadcast⟩

/-- `AttentionManager.waitForResolution`: registers the promise resolver for
the id (modelled as key-set membership). -/
def waitForResolution (m : AttentionManager) (attentionId : String) : AttentionManager :=
  ⟨m.pending, rset m.resolvers attentionId, m.hasBroadcast⟩

/-- `AttentionManager.resolve` (lines 73-118 of `attention.ts`), on the path
where the external `appendInteraction` call returns normally.  `now` is the
`new Date().toISOString()` reading. -/
def resolve (m : AttentionManager) (id : String) (resolution : AttentionResolution)
    (now : String) : AttentionManager × ResolveOut :=
  match mget m.pending id with
  | none => (m, ⟨false, [], [], none⟩)
  | some attention =>
    let interaction : ResolvedInteraction :=
      ⟨id, attention.type, attention.toolName, attention.toolInput,
        resolution.behavior, resolution.message, now⟩
    let events :=
      if m.hasBroadcast then
        [Event.interactionResolved attention.sessionId interaction]
      else []
    let r0 : SdkResult := ⟨resolution.behavior, none, none, none⟩
    let r1 := if strTruthy attention.toolUseId then
        { r0 with toolUseID := attention.toolUseId } else r0
    let r2 := if resolution.behavior = "allow" ∧ attention.toolInput.isSome then
        { r1 with updatedInput := attention.toolInput } else r1
    let r3 := if resolution.behavior = "deny" then
        { r2 with message := some (jsOr resolution.message "Denied by user") } else r2
    let woken := if m.resolvers.contains id then some r3 else none
    let resolvers1 :=
      if m.resolvers.contains id then m.resolvers.filter (fun r => ! (r = id))
      else m.resolvers
    (⟨mdelete m.pending id, resolvers1, m.hasBroadcast⟩,
      ⟨true, [(attention.sessionId, interaction)], events, woken⟩)

/-- `AttentionManager.resolve` with the external persistence step made
fallible: `appendOk` is whether `appendInteraction` (an unguarded
`appendFileSync` in `session-meta.ts`) returns normally.  The call sits
before the broadcast, the awaiter wake-up and the pending-set removal, with
no surrounding `try`, so when it throws the exception propagates out of
`resolve` with the manager state unchanged. -/
def resolveE (m : AttentionManager) (id : String) (resolution : AttentionResolution)
    (now : String) (appendOk : Bool) :
    AttentionManager × Except Unit ResolveOut :=
  match mget m.pending id with
  | none => (m, Except.ok ⟨false, [], [], none⟩)
  | some _ =>
    if appendOk then
      let p := resolve m id resolution now
      (p.1, Except.ok p.2)
    else (m, Except.error ())

/-- Side effects of a `clearForSession` call; the loop body of the source
only deletes map entries, so all three lists are empty by translation. -/
structure ClearEffects where
  appended : List (String × ResolvedInteraction)
  events : List Event
  woken : List SdkResult
deriving DecidableEq, Repr

/-- `AttentionManager.clearForSession` (lines 120-127 of `attention.ts`):
delete every pending entry whose `sessionId` matches, together with its
resolver registration; nothing is invoked, appended or broadcast. -/
def clearForSession (m : AttentionManager) (sessionId : String) :
    AttentionManager × ClearEffects :=
  let removedIds := (m.pending.filter (fun p => p.2.sessionId = sessionId)).map (fun p => p.1)
  (⟨m.pending.filter (fun p => ! (p.2.sessionId = sessionId)),
    m.resolvers.filter (fun r => ! removedIds.contains r),
    m.hasBroadcast⟩,
   ⟨[], [], []⟩)

/-- The `ActiveQuery` record held in `QueryManager.activeQueries`; the
`AbortController` is identified by the abstract `handle` token it was created
with, so that "the same underlying cancellation handle" is expressible. -/
structure ActiveQuery where
  sessionId : String
  handle : Nat
deriving DecidableEq, Repr

/-- The `QueryManager.activeQueries` map (the run supervisor table). -/
abbrev QMState : Type := List (String × ActiveQuery)

/-- `QueryManager.interrupt`: abort and deregister the entry for the id if
present.  The third component reports which cancellation handle (if any) had
`abort()` invoked on it. -/
def interrupt (qm : QMState) (sessionId : String) : QMState × Bool × Option Nat :=
  match mget qm sessionId with
  | some active => (mdelete qm sessionId, true, some active.handle)
  | none => (qm, false, none)

/-- The evolving state of one `runQuery` execution: the captured
`realSessionId` local, the supervisor table, the attention items passed to
`attentionManager.add`, the events broadcast so far (in order), and the
broadcasts scheduled through `setTimeout` (which fire only after the loop
iteration that scheduled them has completed). -/
structure LoopState where
  realSessionId : Option String
  queries : QMState
  added : List Attention
  events : List Event
  deferred : List Event
deriving Repr

/-- One iteration of `runQuery`'s `for await` loop (lines 104-147 of the
final `query.ts`): on the first message with a truthy `sessionId`, capture
it, swap the supervisor-table entry from `tempId` to the real id (same
abort controller), and schedule the `session:created` broadcast; then
broadcast the message under `realSessionId ?? tempId`. -/
def stepMsg (tempId : String) (h : Nat) (st : LoopState) (m : Msg) : LoopState :=
  let st1 :=
    match truthy m.sessionId, st.realSessionId with
    | some rid, none =>
      { st with
        realSessionId := some rid,
        queries := mset (mdelete st.queries tempId) rid ⟨rid, h⟩,
        deferred := st.deferred ++ [Event.sessionCreated rid tempId] }
    | _, _ => st
  let sid := st1.realSessionId.getD tempId
  { st1 with events := st1.events ++ [Event.sessionMessage sid m] }

/-- The whole `for await` loop over the messages the engine produced. -/
def processMsgs (tempId : String) (h : Nat) (st : LoopState) (msgs : List Msg) : LoopState :=
  msgs.foldl (stepMsg tempId h) st

/-- How the engine's event sequence ends: normal exhaustion, or a thrown
error carrying the given message (`err.message`, or `String(err)`). -/
inductive QueryTermination where
  | normal
  | error (message : String)
deriving DecidableEq, Repr

/-- The tail of `runQuery`'s `try`/`catch` (lines 149-165): on normal
exhaustion add and announce a completion attention; on an error whose
message contains `"abort"` broadcast `session:ended {reason: interrupted}`;
on any other error add and announce an error attention.  `attnId` and `ts`
are the random id and clock reading of the terminal attention item, if one
is created. -/
def runQueryFinish (tempId attnId ts : String) (st : LoopState)
    (term : QueryTermination) : LoopState :=
  let sid := st.realSessionId.getD tempId
  match term with
  | QueryTermination.normal =>
    let completion := createCompletionAttention attnId ts sid "Query completed"
    { st with added := st.added ++ [completion],
              events := st.events ++ [Event.attentionRequested completion] }
  | QueryTermination.error msg =>
    if strContains msg "abort" then
      { st with events := st.events ++ [Event.sessionEnded sid "interrupted"] }
    else
      let attention := createErrorAttention attnId ts sid msg
      { st with added := st.added ++ [attention],
                events := st.events ++ [Event.attentionRequested attention] }

/-- `runQuery`'s `finally` block (lines 166-173): deregister the temporary
and (if assigned) real id, then broadcast `session:ended {reason:
completed}` unconditionally. -/
def runQueryFinally (tempId : String) (st : LoopState) : LoopState :=
  let sid := st.realSessionId.getD tempId
  let q1 := mdelete st.queries tempId
  let q2 := match st.realSessionId with
    | some rid => mdelete q1 rid
    | none => q1
  { st with queries := q2, events := st.events ++ [Event.sessionEnded sid "completed"] }

/-- The state at the top of `runQuery`, after
`activeQueries.set(tempId, {sessionId: tempId, abortController})`. -/
def initLoopState (qm : QMState) (tempId : String) (h : Nat) : LoopState :=
  ⟨none, mset qm tempId ⟨tempId, h⟩, [], [], []⟩

/-- One complete `runQuery` execution over an engine outcome consisting of
the messages consumed before termination and the way consumption ended. -/
def runQuery (qm : QMState) (tempId : String) (h : Nat) (attnId ts : String)
    (msgs : List Msg) (term : QueryTermination) : LoopState :=
  runQueryFinally tempId
    (runQueryFinish tempId attnId ts (processMsgs tempId h (initLoopState qm tempId h) msgs) term)

/-- The process-wide pair of supervisor table and attention registry, for
frame properties across the two components. -/
structure System where
  queries : QMState
  aman : AttentionManager

/-- `interrupt` lifted to the whole system: it reads and writes only the
supervisor table. -/
def sysInterrupt (sys : System) (id : String) : System × Bool × Option Nat :=
  let p := interrupt sys.queries id
  (⟨p.1, sys.aman⟩, p.2)

/-- `clearForSession` lifted to the whole system: it reads and writes only
the attention registry. -/
def sysClearForSession (sys : System) (sessionId : String) : System × ClearEffects :=
  let p := clearForSession sys.aman sessionId
  (⟨sys.queries, p.1⟩, p.2)

/-- Recognizer for `session:message` events. -/
def isSessionMessage : Event → Bool
  | Event.sessionMessage _ _ => true
  | _ => false

/-- Recognizer for `session:created` events. -/
def isSessionCreated : Event → Bool
  | Event.sessionCreated _ _ => true
  | _ => false

theorem mget_mset_self {α : Type} (l : List (String × α)) (k : String) (v : α) :
    mget (mset l k v) k = some v := by
  induction l with
  | nil => simp [mget, mset]
  | cons p rest ih =>
    by_cases hp : p.1 = k
    · simp [mset, hp, mget]
    · simp [mset, hp, mget, ih]

theorem mget_mset_ne {α : Type} (l : List (String × α)) (k k' : String) (v : α)
    (hne : k' ≠ k) : mget (mset l k v) k' = mget l k' := by
  have hk : ¬ k = k' := fun hh => hne hh.symm
  induction l with
  | nil => simp [mget, mset, hk]
  | cons p rest ih =>
    by_cases hp : p.1 = k
    · simp [mset, hp, mget, hk]
    · simp [mset, hp, mget, ih]

theorem mget_mdelete_self {α : Type} (l : List (String × α)) (k : String) :
    mget (mdelete l k) k = none := by
  induction l with
  | nil => simp [mget, mdelete]
  | cons p rest ih =>
    by_cases hp : p.1 = k
    · simp [mdelete, hp, ih]
    · simp [mdelete, hp, mget, ih]

theorem mget_mdelete_ne {α : Type} (l : List (String × α)) (k k' : String)
    (hne : k' ≠ k) : mget (mdelete l k) k' = mget l k' := by
  induction l with
  | nil => simp [mdelete]
  | cons p rest ih =>
    by_cases hp : p.1 = k
    · have hk : ¬ k = k' := fun hh => hne hh.symm
      simp [mdelete, hp, mget, hk, ih]
    · simp [mdelete, hp, mget, ih]

theorem processMsgs_nil (tempId : String) (h : Nat) (st : LoopState) :
    processMsgs tempId h st [] = st := rfl

theorem processMsgs_cons (tempId : String) (h : Nat) (st : LoopState)
    (m : Msg) (rest : List Msg) :
    processMsgs tempId h st (m :: rest) = processMsgs tempId h (stepMsg tempId h st m) rest := rfl

theorem processMsgs_append (tempId : String) (h : Nat) (st : LoopState)
    (l1 l2 : List Msg) :
    processMsgs tempId h st (l1 ++ l2) = processMsgs tempId h (processMsgs tempId h st l1) l2 := by
  simp [processMsgs, List.foldl_append]

theorem stepMsg_no_sid (tempId : String) (h : Nat) (st : LoopState) (m : Msg)
    (hr : st.realSessionId = none) (hm : truthy m.sessionId = none) :
    stepMsg tempId h st m =
      { st with events := st.events ++ [Event.sessionMessage tempId m] } := by
  simp [stepMsg, hm, hr]

theorem stepMsg_post (tempId : String) (h : Nat) (st : LoopState) (m : Msg)
    (rid : String) (hr : st.realSessionId = some rid) :
    stepMsg tempId h st m =
      { st with events := st.events ++ [Event.sessionMessage rid m] } := by
  cases htm : truthy m.sessionId <;> simp [stepMsg, htm, hr]

theorem stepMsg_swap (tempId : String) (h : Nat) (st : LoopState) (m : Msg)
    (rid : String) (hr : st.realSessionId = none) (hm : truthy m.sessionId = some rid) :
    stepMsg tempId h st m =
      { st with
        realSessionId := some rid,
        queries := mset (mdelete st.queries tempId) rid ⟨rid, h⟩,
        deferred := st.deferred ++ [Event.sessionCreated rid tempId],
        events := st.events ++ [Event.sessionMessage rid m] } := by
  simp [stepMsg, hm, hr]

theorem processMsgs_pre (tempId : String) (h : Nat) (pre : List Msg) (st : LoopState)
    (hr : st.realSessionId = none) (hpre : ∀ m ∈ pre, truthy m.sessionId = none) :
    processMsgs tempId h st pre =
      { st with events := st.events ++ pre.map (fun m => Event.sessionMessage tempId m) } := by
  induction pre generalizing st with
  | nil => simp [processMsgs_nil]
  | cons m rest ih =>
    have hm : truthy m.sessionId = none := hpre m (by simp)
    have hrest : ∀ m' ∈ rest, truthy m'.sessionId = none :=
      fun m' hmem => hpre m' (by simp [hmem])
    rw [processMsgs_cons, stepMsg_no_sid tempId h st m hr hm,
      ih { st with events := st.events ++ [Event.sessionMessage tempId m] } hr hrest]
    simp

theorem processMsgs_post (tempId : String) (h : Nat) (post : List Msg) (st : LoopState)
    (rid : String) (hr : st.realSessionId = some rid) :
    processMsgs tempId h st post =
      { st with events := st.events ++ post.map (fun m => Event.sessionMessage rid m) } := by
  induction post generalizing st with
  | nil => simp [processMsgs_nil]
  | cons m rest ih =>
    rw [processMsgs_cons, stepMsg_post tempId h st m rid hr,
      ih { st with events := st.events ++ [Event.sessionMessage rid m] } hr]
    simp

theorem processMsgs_split (qm : QMState) (tempId realId : String) (h : Nat)
    (pre post : List Msg) (mn : Msg)
    (hpre : ∀ m ∈ pre, truthy m.sessionId = none)
    (hmn : truthy mn.sessionId = some realId) :
    processMsgs tempId h (initLoopState qm tempId h) (pre ++ mn :: post) =
      { realSessionId := some realId,
        queries := mset (mdelete (mset qm tempId ⟨tempId, h⟩) tempId) realId ⟨realId, h⟩,
        added := [],
        events := pre.map (fun m => Event.sessionMessage tempId m)
          ++ (mn :: post).map (fun m => Event.sessionMessage realId m),
        deferred := [Event.sessionCreated realId tempId] } := by
  rw [processMsgs_append, processMsgs_cons]
  rw [processMsgs_pre tempId h pre (initLoopState qm tempId h) rfl hpre]
  rw [stepMsg_swap tempId h _ mn realId rfl hmn]
  rw [processMsgs_post tempId h post _ realId rfl]
  simp [initLoopState]

theorem runQueryFinish_normal (tempId attnId ts : String) (st : LoopState) :
    runQueryFinish tempId attnId ts st QueryTermination.normal =
      { st with
        added := st.added
          ++ [createCompletionAttention attnId ts (st.realSessionId.getD tempId) "Query completed"],
        events := st.events
          ++ [Event.attentionRequested
            (createCompletionAttention attnId ts (st.realSessionId.getD tempId) "Query completed")] } := by
  simp [runQueryFinish]

theorem runQueryFinish_error_abort (tempId attnId ts : String) (st : LoopState)
    (msg : String) (hab : strContains msg "abort" = true) :
    runQueryFinish tempId attnId ts st (QueryTermination.error msg) =
      { st with
        events := st.events
          ++ [Event.sessionEnded (st.realSessionId.getD tempId) "interrupted"] } := by
  simp [runQueryFinish, hab]

theorem runQueryFinish_error_normal (tempId attnId ts : String) (st : LoopState)
    (msg : String) (hab : strContains msg "abort" = false) :
    runQueryFinish tempId attnId ts st (QueryTermination.error msg) =
      { st with
        added := st.added
          ++ [createErrorAttention attnId ts (st.realSessionId.getD tempId) msg],
        events := st.events
          ++ [Event.attentionRequested
            (createErrorAttention attnId ts (st.realSessionId.getD tempId) msg)] } := by
  simp [runQueryFinish, hab]

theorem runQueryFinally_events (tempId : String) (st : LoopState) :
    (runQueryFinally tempId st).events =
      st.events ++ [Event.sessionEnded (st.realSessionId.getD tempId) "completed"] := by
  simp [runQueryFinally]

theorem runQueryFinally_added (tempId : String) (st : LoopState) :
    (runQueryFinally tempId st).added = st.added := by
  simp [runQueryFinally]

theorem runQueryFinally_deferred (tempId : String) (st : LoopState) :
    (runQueryFinally tempId st).deferred = st.deferred := by
  simp [runQueryFinally]

theorem runQueryFinally_realSessionId (tempId : String) (st : LoopState) :
    (runQueryFinally tempId st).realSessionId = st.realSessionId := by
  simp [runQueryFinally]

theorem filter_created_of_map (sid : String) (l : List Msg) :
    (l.map (fun m => Event.sessionMessage sid m)).filter isSessionCreated = [] := by
  induction l <;> simp_all [isSessionCreated]

theorem filter_message_of_map (sid : String) (l : List Msg) :
    (l.map (fun m => Event.sessionMessage sid m)).filter isSessionMessage
      = l.map (fun m => Event.sessionMessage sid m) := by
  induction l <;> simp_all [isSessionMessage]

theorem runQueryFinish_realSessionId (tempId attnId ts : String) (st : LoopState)
    (term : QueryTermination) :
    (runQueryFinish tempId attnId ts st term).realSessionId = st.realSessionId := by
  cases term with
  | normal => simp [runQueryFinish]
  | error msg =>
    simp only [runQueryFinish]
    split <;> simp

theorem runQueryFinish_deferred (tempId attnId ts : String) (st : LoopState)
    (term : QueryTermination) :
    (runQueryFinish tempId attnId ts st term).deferred = st.deferred := by
  cases term with
  | normal => simp [runQueryFinish]
  | error msg =>
    simp only [runQueryFinish]
    split <;> simp

theorem runQueryFinish_events_extra (tempId attnId ts : String) (st : LoopState)
    (term : QueryTermination) :
    ∃ extra, (runQueryFinish tempId attnId ts st term).events = st.events ++ extra ∧
      extra.filter isSessionCreated = [] ∧ extra.filter isSessionMessage = [] := by
  cases term with
  | normal =>
    refine ⟨[Event.attentionRequested
      (createCompletionAttention attnId ts (st.realSessionId.getD tempId) "Query completed")],
      ?_, ?_, ?_⟩ <;> simp [runQueryFinish, isSessionCreated, isSessionMessage]
  | error msg =>
    cases habt : strContains msg "abort"
    · refine ⟨[Event.attentionRequested
        (createErrorAttention attnId ts (st.realSessionId.getD tempId) msg)],
        ?_, ?_, ?_⟩ <;> simp [runQueryFinish, habt, isSessionCreated, isSessionMessage]
    · refine ⟨[Event.sessionEnded (st.realSessionId.getD tempId) "interrupted"],
        ?_, ?_, ?_⟩ <;> simp [runQueryFinish, habt, isSessionCreated, isSessionMessage]

theorem runQuery_shape (qm : QMState) (tempId : String) (h : Nat) (attnId ts : String)
    (msgs : List Msg) (term : QueryTermination) :
    ∃ extra, (runQuery qm tempId h attnId ts msgs term).events
        = (processMsgs tempId h (initLoopState qm tempId h) msgs).events ++ extra
      ∧ extra.filter isSessionCreated = [] ∧ extra.filter isSessionMessage = []
      ∧ (runQuery qm tempId h attnId ts msgs term).deferred
        = (processMsgs tempId h (initLoopState qm tempId h) msgs).deferred := by
  obtain ⟨extra, hev, hc, hm2⟩ := runQueryFinish_events_extra tempId attnId ts
    (processMsgs tempId h (initLoopState qm tempId h) msgs) term
  refine ⟨extra ++ [Event.sessionEnded
    ((runQueryFinish tempId attnId ts (processMsgs tempId h (initLoopState qm tempId h) msgs)
      term).realSessionId.getD tempId) "completed"], ?_, ?_, ?_, ?_⟩
  · rw [runQuery, runQueryFinally_events, hev]
    simp
  · simp [List.filter_append, hc, isSessionCreated]
  · simp [List.filter_append, hm2, isSessionMessage]
  · rw [runQuery, runQueryFinally_deferred, runQueryFinish_deferred]

/-- Claim C7: when consuming the engine's event sequence fails with an error
that is not caller-initiated cancellation (its message does not contain
`"abort"`), the run creates an error-kind attention item, publishes it via
`attention:requested`, and still terminates by publishing `session:ended`
with reason `completed` — errored runs are not distinguished from
normally-completed runs at the `session:ended` level. -/
theorem errored_run_reports_attention_and_ends_completed
    (qm : QMState) (tempId : String) (h : Nat) (attnId ts : String)
    (msgs : List Msg) (errMsg : String) (st : LoopState) (sid : String) (errAttn : Attention)
    (hst : st = runQuery qm tempId h attnId ts msgs (QueryTermination.error errMsg))
    (hsid : sid = st.realSessionId.getD tempId)
    (hattn : errAttn = createErrorAttention attnId ts sid errMsg)
    (hab : strContains errMsg "abort" = false) :
    errAttn ∈ st.added ∧
    Event.attentionRequested errAttn ∈ st.events ∧
    st.events.getLast? = some (Event.sessionEnded sid "completed") := by
  subst hattn hsid hst
  rw [runQuery] at *
  rw [runQueryFinish_error_normal _ _ _ _ _ hab] at *
  refine ⟨?_, ?_, ?_⟩
  · rw [runQueryFinally_added, runQueryFinally_realSessionId]
    simp
  · rw [runQueryFinally_events, runQueryFinally_realSessionId]
    simp
  · rw [runQueryFinally_events, runQueryFinally_realSessionId]
    exact List.getLast?_concat _

/-- Claim C9: whatever way `runQuery` terminates, the `finally` block
publishes `session:ended {reason: completed}`; consequently an
abort-classified (cancelled) run publishes two `session:ended` events for
the same effective session id, first `interrupted` and then `completed`. -/
theorem run_always_ends_completed_and_cancelled_runs_end_twice
    (qm : QMState) (tempId : String) (h : Nat) (attnId ts : String)
    (msgs : List Msg) (term : QueryTermination) (st : LoopState) (sid : String)
    (hst : st = runQuery qm tempId h attnId ts msgs term)
    (hsid : sid = st.realSessionId.getD tempId) :
    st.events.getLast? = some (Event.sessionEnded sid "completed") ∧
    (∀ errMsg, term = QueryTermination.error errMsg → strContains errMsg "abort" = true →
      ∃ evs, st.events
        = evs ++ [Event.sessionEnded sid "interrupted", Event.sessionEnded sid "completed"]) := by
  subst hsid hst
  rw [runQuery] at *
  rw [runQueryFinally_realSessionId, runQueryFinish_realSessionId]
  constructor
  · rw [runQueryFinally_events, runQueryFinish_realSessionId]
    exact List.getLast?_concat _
  · intro errMsg hterm habt
    subst hterm
    refine ⟨(processMsgs tempId h (initLoopState qm tempId h) msgs).events, ?_⟩
    rw [runQueryFinally_events, runQueryFinish_realSessionId,
      runQueryFinish_error_abort _ _ _ _ _ habt]
    simp

/-- Claim C6: for a run whose engine sequence has its first truthy
`sessionId` on event `n` (here: after the messages `pre`, on message `mn`
carrying `realId`), exactly one `session:created` event carrying the
temporary id is scheduled — via `setTimeout`, so it is published only after
the loop iteration consuming event `n` has completed — no `session:created`
is broadcast synchronously, and the `session:message` events are exactly:
one per engine message in order, carrying `tempId` before event `n` and
`realId` from event `n` on. -/
theorem identity_swap_session_created_once_and_message_ids
    (qm : QMState) (tempId realId : String) (h : Nat) (attnId ts : String)
    (pre post : List Msg) (mn : Msg) (term : QueryTermination) (st : LoopState)
    (hst : st = runQuery qm tempId h attnId ts (pre ++ mn :: post) term)
    (hpre : ∀ m ∈ pre, truthy m.sessionId = none)
    (hmn : truthy mn.sessionId = some realId) :
    st.deferred = [Event.sessionCreated realId tempId] ∧
    st.events.filter isSessionCreated = [] ∧
    st.events.filter isSessionMessage =
      pre.map (fun m => Event.sessionMessage tempId m)
        ++ (mn :: post).map (fun m => Event.sessionMessage realId m) := by
  subst hst
  obtain ⟨extra, hev, hc, hm2, hdef⟩ := runQuery_shape qm tempId h attnId ts (pre ++ mn :: post) term
  rw [processMsgs_split qm tempId realId h pre post mn hpre hmn] at hev hdef
  refine ⟨?_, ?_, ?_⟩
  · rw [hdef]
  · rw [hev]
    simp only [List.filter_eq_nil_iff] at hc
    simp [List.filter_append, filter_created_of_map, isSessionCreated]
    intro a ha
    simpa [isSessionCreated] using hc a ha
  · rw [hev]
    simp only [List.filter_eq_nil_iff] at hm2
    simp [List.filter_append, filter_message_of_map, isSessionMessage]
    intro a ha
    simpa [isSessionMessage] using hm2 a ha

/-- Claim C2: interrupting by the currently effective identifier works at
every point of a run's life: before the identity swap `interrupt(tempId)`
returns true and aborts the run's cancellation handle; after the first
engine event carrying the real session identifier, `interrupt(tempId)`
returns false (stale key) while `interrupt(realId)` returns true and aborts
the same underlying cancellation handle that `interrupt(tempId)` would have
aborted before the swap. -/
theorem interrupt_by_effective_id
    (qm : QMState) (tempId realId : String) (h : Nat)
    (pre post : List Msg) (mn : Msg) (stPre stSwap : LoopState)
    (hstPre : stPre = processMsgs tempId h (initLoopState qm tempId h) pre)
    (hstSwap : stSwap = processMsgs tempId h (initLoopState qm tempId h) (pre ++ mn :: post))
    (hpre : ∀ m ∈ pre, truthy m.sessionId = none)
    (hmn : truthy mn.sessionId = some realId)
    (hne : tempId ≠ realId) :
    (interrupt stPre.queries tempId).2 = (true, some h) ∧
    (interrupt stSwap.queries tempId).2 = (false, none) ∧
    (interrupt stSwap.queries realId).2 = (true, some h) := by
  subst hstPre hstSwap
  rw [processMsgs_pre tempId h pre (initLoopState qm tempId h) rfl hpre,
    processMsgs_split qm tempId realId h pre post mn hpre hmn]
  refine ⟨?_, ?_, ?_⟩
  · simp [initLoopState, interrupt, mget_mset_self]
  · simp [interrupt, mget_mset_ne _ _ _ _ hne, mget_mdelete_self]
  · simp [interrupt, mget_mset_self]

theorem rset_contains (l : List String) (k : String) : (rset l k).contains k = true := by
  unfold rset
  split
  · assumption
  · simp

theorem resolve_pending_of_enqueued (m : AttentionManager) (a : Attention) :
    mget (waitForResolution (add m a) a.id).pending a.id = some a := by
  simp [waitForResolution, add, mget_mset_self]

theorem rset_mem (l : List String) (k : String) : k ∈ rset l k := by
  unfold rset
  split
  · next hc => simpa using hc
  · simp

theorem resolve_resolver_of_enqueued (m : AttentionManager) (a : Attention) :
    (waitForResolution (add m a) a.id).resolvers.contains a.id = true := by
  simp [waitForResolution, add]
  exact rset_mem m.resolvers a.id

/-- Claim C1 counterexample: a permission item whose engine correlation
token `toolUseId` is the empty string.  JS truthiness (`if
(attention.toolUseId)`) makes `resolve` omit the `toolUseID` field from the
payload delivered to the awaiter, so the payload's `toolUseID` (absent,
`none`) does not equal the item's `toolUseId` (`some ""`). -/
theorem allow_empty_toolUseID_counterexample :
    (resolve (waitForResolution (add ⟨[], [], false⟩
        (createPermissionAttention "attn_1" "t0" "s1" "Edit" (some "a.ts") "")) "attn_1")
      "attn_1" ⟨"allow", none, none⟩ "t1").2.woken
      = some ⟨"allow", none, some "a.ts", none⟩ ∧
    (createPermissionAttention "attn_1" "t0" "s1" "Edit" (some "a.ts") "").toolUseId
      = some "" := by
  constructor
  · rfl
  · rfl

/-- Claim C1 (amended): resolving a pending permission-kind item that has a
suspended awaiter with behavior `allow` wakes the awaiter with a payload
whose `updatedInput` equals the `toolInput` captured at enqueue time —
regardless of any message or input field in the resolution call — and whose
`toolUseID` equals the item's `toolUseId` whenever that token is non-empty
(an empty `toolUseId` is falsy in JS and is omitted from the payload). -/
theorem allow_payload_echoes_enqueue_input
    (m : AttentionManager) (id ts sid tool : String) (input : Option String)
    (tid : String) (rmsg rinput : Option String) (now : String) :
    (resolve (waitForResolution (add m (createPermissionAttention id ts sid tool input tid)) id)
        id ⟨"allow", rmsg, rinput⟩ now).2.woken
      = some ⟨"allow", if tid = "" then none else some tid, input, none⟩ ∧
    (resolve (waitForResolution (add m (createPermissionAttention id ts sid tool input tid)) id)
        id ⟨"allow", rmsg, rinput⟩ now).2.returned = true := by
  have hpend := resolve_pending_of_enqueued m (createPermissionAttention id ts sid tool input tid)
  have hresv := resolve_resolver_of_enqueued m (createPermissionAttention id ts sid tool input tid)
  constructor
  · simp only [resolve, createPermissionAttention] at hpend hresv ⊢
    rw [hpend]
    simp only [hresv]
    by_cases htid : tid = "" <;> cases input <;>
      simp [strTruthy, htid, createPermissionAttention]
  · simp only [resolve, createPermissionAttention] at hpend ⊢
    rw [hpend]

/-- Claim C5 counterexample: resolving with `behavior: deny` and the empty
string as the supplied message yields the default `"Denied by user"`, not
the supplied message verbatim — the source uses `resolution.message ||
'Denied by user'`, and `""` is falsy in JS. -/
theorem deny_empty_message_counterexample :
    (resolve (waitForResolution (add ⟨[], [], false⟩
        (createPermissionAttention "attn_2" "t0" "s1" "Edit" (some "a.ts") "tu1")) "attn_2")
      "attn_2" ⟨"deny", some "", none⟩ "t1").2.woken
      = some ⟨"deny", some "tu1", none, some "Denied by user"⟩ ∧
    ("" : String) ≠ "Denied by user" := by
  constructor
  · rfl
  · decide

/-- Claim C5 (amended): resolving a pending item that has a suspended
awaiter with behavior `deny` and no message — or an empty message, which is
falsy in JS — yields the default denial message `"Denied by user"`; with a
non-empty supplied message the payload's message equals it verbatim. -/
theorem deny_message_default_or_verbatim (m : AttentionManager) (a : Attention)
    (rinput : Option String) (now : String) :
    ((resolve (waitForResolution (add m a) a.id) a.id ⟨"deny", none, rinput⟩ now).2.woken
      = some ⟨"deny", if strTruthy a.toolUseId then a.toolUseId else none, none,
          some "Denied by user"⟩) ∧
    ((resolve (waitForResolution (add m a) a.id) a.id ⟨"deny", some "", rinput⟩ now).2.woken
      = some ⟨"deny", if strTruthy a.toolUseId then a.toolUseId else none, none,
          some "Denied by user"⟩) ∧
    (∀ s : String, s ≠ "" →
      (resolve (waitForResolution (add m a) a.id) a.id ⟨"deny", some s, rinput⟩ now).2.woken
        = some ⟨"deny", if strTruthy a.toolUseId then a.toolUseId else none, none, some s⟩) := by
  have hpend := resolve_pending_of_enqueued m a
  have hresv := resolve_resolver_of_enqueued m a
  refine ⟨?_, ?_, ?_⟩
  · simp only [resolve]
    rw [hpend]
    simp only [hresv]
    by_cases htu : strTruthy a.toolUseId = true <;> simp [htu, jsOr]
  · simp only [resolve]
    rw [hpend]
    simp only [hresv]
    by_cases htu : strTruthy a.toolUseId = true <;> simp [htu, jsOr]
  · intro s hs
    simp only [resolve]
    rw [hpend]
    simp only [hresv]
    by_cases htu : strTruthy a.toolUseId = true <;> simp [htu, jsOr, hs]

/-- Claim C10 counterexample: for a permission item whose `toolUseId` is the
empty string, resolving with `allowAlways` wakes the awaiter with a payload
containing only the behavior — the `toolUseID` the claim promises is absent,
because an empty token is falsy in JS and is omitted. -/
theorem allowAlways_empty_toolUseID_counterexample :
    (resolve (waitForResolution (add ⟨[], [], false⟩
        (createPermissionAttention "attn_3" "t0" "s1" "Bash" (some "ls") "")) "attn_3")
      "attn_3" ⟨"allowAlways", none, none⟩ "t1").2.woken
      = some ⟨"allowAlways", none, none, none⟩ ∧
    (createPermissionAttention "attn_3" "t0" "s1" "Bash" (some "ls") "").toolUseId
      = some "" := by
  constructor
  · rfl
  · rfl

/-- Claim C10 (amended): resolving a pending permission-kind item that has a
suspended awaiter with any behavior other than `allow` and `deny` (for
example `allowAlways`) wakes the awaiter with a payload containing only the
behavior and — when the item's `toolUseId` is non-empty — the `toolUseID`;
no `updatedInput` field is included even though the item's `toolInput` was
captured, and no `message` field is included. -/
theorem other_behavior_payload_minimal (m : AttentionManager) (id ts sid tool : String)
    (input : Option String) (tid : String) (b : String) (rmsg rinput : Option String)
    (now : String) (hb1 : b ≠ "allow") (hb2 : b ≠ "deny") :
    (resolve (waitForResolution (add m (createPermissionAttention id ts sid tool input tid)) id)
        id ⟨b, rmsg, rinput⟩ now).2.woken
      = some ⟨b, if tid = "" then none else some tid, none, none⟩ := by
  have hpend := resolve_pending_of_enqueued m (createPermissionAttention id ts sid tool input tid)
  have hresv := resolve_resolver_of_enqueued m (createPermissionAttention id ts sid tool input tid)
  simp only [resolve, createPermissionAttention] at hpend hresv ⊢
  rw [hpend]
  simp only [hresv]
  by_cases htid : tid = "" <;> simp [strTruthy, htid, hb1, hb2]

/-- Claim C3: resolving an id that is not in the pending set returns false
with no side effect at all — no record appended, no event broadcast, no
awaiter woken, and the manager state unchanged; and because a successful
`resolve` removes the item from the pending set, a second `resolve` of the
same id returns false with no side effect either. -/
theorem resolve_unknown_noop_and_idempotent
    (m : AttentionManager) (id : String) (r r2 : AttentionResolution) (now now2 : String) :
    (mget m.pending id = none → resolve m id r now = (m, ⟨false, [], [], none⟩)) ∧
    (∀ m1 out, resolve m id r now = (m1, out) → out.returned = true →
      resolve m1 id r2 now2 = (m1, ⟨false, [], [], none⟩)) := by
  have hunknown : ∀ (mm : AttentionManager) (rr : AttentionResolution) (nn : String),
      mget mm.pending id = none → resolve mm id rr nn = (mm, ⟨false, [], [], none⟩) := by
    intro mm rr nn hid
    simp [resolve, hid]
  constructor
  · exact fun hid => hunknown m r now hid
  · intro m1 out hres hret
    cases hm : mget m.pending id with
    | none =>
      rw [hunknown m r now hm] at hres
      injection hres with h1 h2
      rw [← h2] at hret
      simp at hret
    | some a =>
      rw [resolve] at hres
      rw [hm] at hres
      have hm1 : m1.pending = mdelete m.pending id := by
        have := congrArg (fun p => p.1.pending) hres
        simpa using this.symm
      have hnone : mget m1.pending id = none := by
        rw [hm1]
        exact mget_mdelete_self m.pending id
      exact hunknown m1 r2 now2 hnone

/-- Claim C4 counterexample: with an item pending and an awaiter registered,
a failing `appendInteraction` (an unguarded `appendFileSync`) makes
`resolve` throw: the exception propagates, the awaiter is not woken, the
item stays pending, and no `true` is returned — persistence failures are
not swallowed, contrary to the claim's "best-effort logging". -/
theorem persistence_failure_counterexample :
    resolveE (waitForResolution (add ⟨[], [], false⟩
        (createPermissionAttention "attn_4" "t0" "s1" "Edit" (some "a.ts") "tu1")) "attn_4")
      "attn_4" ⟨"allow", none, none⟩ "t1" false
      = (waitForResolution (add ⟨[], [], false⟩
          (createPermissionAttention "attn_4" "t0" "s1" "Edit" (some "a.ts") "tu1")) "attn_4",
        Except.error ()) ∧
    mget (waitForResolution (add ⟨[], [], false⟩
        (createPermissionAttention "attn_4" "t0" "s1" "Edit" (some "a.ts") "tu1")) "attn_4").pending
      "attn_4"
      = some (createPermissionAttention "attn_4" "t0" "s1" "Edit" (some "a.ts") "tu1") ∧
    (waitForResolution (add ⟨[], [], false⟩
        (createPermissionAttention "attn_4" "t0" "s1" "Edit" (some "a.ts") "tu1")) "attn_4").resolvers.contains
      "attn_4" = true := by
  refine ⟨rfl, rfl, rfl⟩

/-- Claim C4 (amended): a failure of the external persistence step during
`resolve` propagates out of the resolution path — the manager state is
unchanged, the awaiter is not woken and `resolve` does not return true;
only when persistence succeeds does `resolve` proceed to wake the
registered awaiter, remove the item from the pending set and return true. -/
theorem persistence_failure_propagates (m : AttentionManager) (id : String)
    (r : AttentionResolution) (now : String) (a : Attention)
    (ha : mget m.pending id = some a) :
    resolveE m id r now false = (m, Except.error ()) ∧
    resolveE m id r now true = ((resolve m id r now).1, Except.ok (resolve m id r now).2) ∧
    (resolve m id r now).2.returned = true ∧
    mget (resolve m id r now).1.pending id = none ∧
    (m.resolvers.contains id = true → ((resolve m id r now).2.woken).isSome = true) := by
  refine ⟨?_, ?_, ?_, ?_, ?_⟩
  · simp [resolveE, ha]
  · simp [resolveE, ha]
  · rw [resolve, ha]
  · rw [resolve, ha]
    exact mget_mdelete_self m.pending id
  · intro hc
    have hc2 : id ∈ m.resolvers := by simpa using hc
    rw [resolve, ha]
    simp [hc2]

/-- Claim C8: `clearForSession(runId)` drops exactly the pending attention
items whose session id equals `runId`, performing no awaiter invocation, no
`appendInteraction` and no broadcast, leaving every other run's pending
items and the whole supervisor table untouched; and `interrupt(runId)`
leaves every other run's supervisor-table entry and the whole attention
registry untouched. -/
theorem clear_and_interrupt_touch_only_their_run (sys : System) (runId : String) :
    (sysClearForSession sys runId).2 = ⟨[], [], []⟩ ∧
    (sysClearForSession sys runId).1.queries = sys.queries ∧
    (sysClearForSession sys runId).1.aman.pending
      = sys.aman.pending.filter (fun p => ! (p.2.sessionId = runId)) ∧
    (sysClearForSession sys runId).1.aman.hasBroadcast = sys.aman.hasBroadcast ∧
    (∀ k, k ≠ runId → mget (sysInterrupt sys runId).1.queries k = mget sys.queries k) ∧
    (sysInterrupt sys runId).1.aman = sys.aman := by
  refine ⟨rfl, rfl, rfl, rfl, ?_, rfl⟩
  intro k hk
  simp only [sysInterrupt, interrupt]
  cases hq : mget sys.queries runId with
  | some active => simp [mget_mdelete_ne sys.queries runId k hk]
  | none => simp

/-- Concrete instantiation of the C2 theorem: one engine message without a
session id, then the swap message carrying `"abc"`, then one more. -/
theorem interrupt_by_effective_id_witness :
    (interrupt (processMsgs "pending_1" 7 (initLoopState [] "pending_1" 7)
      [⟨none⟩]).queries "pending_1").2 = (true, some 7) ∧
    (interrupt (processMsgs "pending_1" 7 (initLoopState [] "pending_1" 7)
      ([⟨none⟩] ++ (⟨some "abc"⟩ : Msg) :: [⟨none⟩])).queries "pending_1").2 = (false, none) ∧
    (interrupt (processMsgs "pending_1" 7 (initLoopState [] "pending_1" 7)
      ([⟨none⟩] ++ (⟨some "abc"⟩ : Msg) :: [⟨none⟩])).queries "abc").2 = (true, some 7) :=
  interrupt_by_effective_id [] "pending_1" "abc" 7 [⟨none⟩] [⟨none⟩] ⟨some "abc"⟩ _ _
    rfl rfl (by decide) (by decide) (by decide)

/-- Concrete instantiation of the C6 theorem: the third engine event carries
`sessionId = "abc"`. -/
theorem identity_swap_witness :
    (runQuery [] "pending_1" 7 "a1" "t0"
        ([⟨none⟩, ⟨none⟩] ++ (⟨some "abc"⟩ : Msg) :: [⟨none⟩]) QueryTermination.normal).deferred
      = [Event.sessionCreated "abc" "pending_1"] ∧
    (runQuery [] "pending_1" 7 "a1" "t0"
        ([⟨none⟩, ⟨none⟩] ++ (⟨some "abc"⟩ : Msg) :: [⟨none⟩])
        QueryTermination.normal).events.filter isSessionCreated = [] ∧
    (runQuery [] "pending_1" 7 "a1" "t0"
        ([⟨none⟩, ⟨none⟩] ++ (⟨some "abc"⟩ : Msg) :: [⟨none⟩])
        QueryTermination.normal).events.filter isSessionMessage
      = ([⟨none⟩, ⟨none⟩] : List Msg).map (fun m => Event.sessionMessage "pending_1" m)
        ++ ((⟨some "abc"⟩ : Msg) :: [⟨none⟩]).map (fun m => Event.sessionMessage "abc" m) :=
  identity_swap_session_created_once_and_message_ids [] "pending_1" "abc" 7 "a1" "t0"
    [⟨none⟩, ⟨none⟩] [⟨none⟩] ⟨some "abc"⟩ QueryTermination.normal _
    rfl (by decide) (by decide)

/-- Concrete instantiation of the C7 theorem: an engine failure `"boom"`
after one message that fixed the real id `"abc"`. -/
theorem errored_run_witness :
    createErrorAttention "a1" "t0" "abc" "boom"
      ∈ (runQuery [] "pending_1" 7 "a1" "t0" [⟨some "abc"⟩]
          (QueryTermination.error "boom")).added ∧
    Event.attentionRequested (createErrorAttention "a1" "t0" "abc" "boom")
      ∈ (runQuery [] "pending_1" 7 "a1" "t0" [⟨some "abc"⟩]
          (QueryTermination.error "boom")).events ∧
    (runQuery [] "pending_1" 7 "a1" "t0" [⟨some "abc"⟩]
        (QueryTermination.error "boom")).events.getLast?
      = some (Event.sessionEnded "abc" "completed") :=
  errored_run_reports_attention_and_ends_completed [] "pending_1" 7 "a1" "t0"
    [⟨some "abc"⟩] "boom" _ "abc" _ rfl (by rfl) rfl (by decide)

/-- Concrete instantiation of the C9 theorem: an abort-classified failure
publishes `session:ended interrupted` and then `session:ended completed`. -/
theorem double_session_ended_witness :
    (runQuery [] "pending_1" 7 "a1" "t0" []
        (QueryTermination.error "The operation was aborted")).events.getLast?
      = some (Event.sessionEnded "pending_1" "completed") ∧
    ∃ evs, (runQuery [] "pending_1" 7 "a1" "t0" []
        (QueryTermination.error "The operation was aborted")).events
      = evs ++ [Event.sessionEnded "pending_1" "interrupted",
                Event.sessionEnded "pending_1" "completed"] :=
  ⟨(run_always_ends_completed_and_cancelled_runs_end_twice [] "pending_1" 7 "a1" "t0" []
      (QueryTermination.error "The operation was aborted") _ "pending_1" rfl rfl).1,
   (run_always_ends_completed_and_cancelled_runs_end_twice [] "pending_1" 7 "a1" "t0" []
      (QueryTermination.error "The operation was aborted") _ "pending_1" rfl rfl).2
     "The operation was aborted" rfl (by decide)⟩

/-- Concrete instantiation of the C3 theorem: resolving an id that was never
enqueued, and resolving the same id twice. -/
theorem resolve_unknown_witness :
    resolve (⟨[], [], true⟩ : AttentionManager) "zzz" ⟨"allow", none, none⟩ "t"
      = (⟨[], [], true⟩, ⟨false, [], [], none⟩) ∧
    resolve (resolve (waitForResolution (add ⟨[], [], true⟩
          (createPermissionAttention "attn_6" "t0" "s1" "Edit" (some "x") "tu6")) "attn_6")
        "attn_6" ⟨"allow", none, none⟩ "t1").1
      "attn_6" ⟨"deny", some "no", none⟩ "t2"
      = ((resolve (waitForResolution (add ⟨[], [], true⟩
          (createPermissionAttention "attn_6" "t0" "s1" "Edit" (some "x") "tu6")) "attn_6")
        "attn_6" ⟨"allow", none, none⟩ "t1").1, ⟨false, [], [], none⟩) :=
  ⟨(resolve_unknown_noop_and_idempotent ⟨[], [], true⟩ "zzz"
      ⟨"allow", none, none⟩ ⟨"allow", none, none⟩ "t" "t").1 rfl,
   (resolve_unknown_noop_and_idempotent
      (waitForResolution (add ⟨[], [], true⟩
        (createPermissionAttention "attn_6" "t0" "s1" "Edit" (some "x") "tu6")) "attn_6")
      "attn_6" ⟨"allow", none, none⟩ ⟨"deny", some "no", none⟩ "t1" "t2").2 _ _ rfl rfl⟩

/-- Concrete instantiation of the C4 (amended) theorem, at a pending
permission item with a registered awaiter. -/
theorem persistence_failure_witness :
    resolveE (waitForResolution (add ⟨[], [], true⟩
        (createPermissionAttention "attn_7" "t0" "s1" "Edit" (some "a.ts") "tu7")) "attn_7")
      "attn_7" ⟨"allow", none, none⟩ "t1" false
      = (waitForResolution (add ⟨[], [], true⟩
          (createPermissionAttention "attn_7" "t0" "s1" "Edit" (some "a.ts") "tu7")) "attn_7",
        Except.error ()) ∧
    resolveE (waitForResolution (add ⟨[], [], true⟩
        (createPermissionAttention "attn_7" "t0" "s1" "Edit" (some "a.ts") "tu7")) "attn_7")
      "attn_7" ⟨"allow", none, none⟩ "t1" true
      = ((resolve (waitForResolution (add ⟨[], [], true⟩
            (createPermissionAttention "attn_7" "t0" "s1" "Edit" (some "a.ts") "tu7")) "attn_7")
          "attn_7" ⟨"allow", none, none⟩ "t1").1,
        Except.ok (resolve (waitForResolution (add ⟨[], [], true⟩
            (createPermissionAttention "attn_7" "t0" "s1" "Edit" (some "a.ts") "tu7")) "attn_7")
          "attn_7" ⟨"allow", none, none⟩ "t1").2) ∧
    (resolve (waitForResolution (add ⟨[], [], true⟩
        (createPermissionAttention "attn_7" "t0" "s1" "Edit" (some "a.ts") "tu7")) "attn_7")
      "attn_7" ⟨"allow", none, none⟩ "t1").2.returned = true ∧
    mget (resolve (waitForResolution (add ⟨[], [], true⟩
        (createPermissionAttention "attn_7" "t0" "s1" "Edit" (some "a.ts") "tu7")) "attn_7")
      "attn_7" ⟨"allow", none, none⟩ "t1").1.pending "attn_7" = none ∧
    ((resolve (waitForResolution (add ⟨[], [], true⟩
        (createPermissionAttention "attn_7" "t0" "s1" "Edit" (some "a.ts") "tu7")) "attn_7")
      "attn_7" ⟨"allow", none, none⟩ "t1").2.woken).isSome = true :=
  ⟨(persistence_failure_propagates (waitForResolution (add ⟨[], [], true⟩
      (createPermissionAttention "attn_7" "t0" "s1" "Edit" (some "a.ts") "tu7")) "attn_7")
      "attn_7" ⟨"allow", none, none⟩ "t1"
      (createPermissionAttention "attn_7" "t0" "s1" "Edit" (some "a.ts") "tu7") rfl).1,
   (persistence_failure_propagates (waitForResolution (add ⟨[], [], true⟩
      (createPermissionAttention "attn_7" "t0" "s1" "Edit" (some "a.ts") "tu7")) "attn_7")
      "attn_7" ⟨"allow", none, none⟩ "t1"
      (createPermissionAttention "attn_7" "t0" "s1" "Edit" (some "a.ts") "tu7") rfl).2.1,
   (persistence_failure_propagates (waitForResolution (add ⟨[], [], true⟩
      (createPermissionAttention "attn_7" "t0" "s1" "Edit" (some "a.ts") "tu7")) "attn_7")
      "attn_7" ⟨"allow", none, none⟩ "t1"
      (createPermissionAttention "attn_7" "t0" "s1" "Edit" (some "a.ts") "tu7") rfl).2.2.1,
   (persistence_failure_propagates (waitForResolution (add ⟨[], [], true⟩
      (createPermissionAttention "attn_7" "t0" "s1" "Edit" (some "a.ts") "tu7")) "attn_7")
      "attn_7" ⟨"allow", none, none⟩ "t1"
      (createPermissionAttention "attn_7" "t0" "s1" "Edit" (some "a.ts") "tu7") rfl).2.2.2.1,
   (persistence_failure_propagates (waitForResolution (add ⟨[], [], true⟩
      (createPermissionAttention "attn_7" "t0" "s1" "Edit" (some "a.ts") "tu7")) "attn_7")
      "attn_7" ⟨"allow", none, none⟩ "t1"
      (createPermissionAttention "attn_7" "t0" "s1" "Edit" (some "a.ts") "tu7") rfl).2.2.2.2 rfl⟩

/-- Concrete instantiation of the C5 (amended) theorem: deny with no
message, with an empty message, and with the non-empty message
`"custom reason"`. -/
theorem deny_message_witness :
    ((resolve (waitForResolution (add ⟨[], [], true⟩
        (createPermissionAttention "attn_8" "t0" "s1" "Edit" (some "x") "tu8")) "attn_8")
      "attn_8" ⟨"deny", none, none⟩ "t1").2.woken
      = some ⟨"deny", some "tu8", none, some "Denied by user"⟩) ∧
    ((resolve (waitForResolution (add ⟨[], [], true⟩
        (createPermissionAttention "attn_8" "t0" "s1" "Edit" (some "x") "tu8")) "attn_8")
      "attn_8" ⟨"deny", some "", none⟩ "t1").2.woken
      = some ⟨"deny", some "tu8", none, some "Denied by user"⟩) ∧
    ((resolve (waitForResolution (add ⟨[], [], true⟩
        (createPermissionAttention "attn_8" "t0" "s1" "Edit" (some "x") "tu8")) "attn_8")
      "attn_8" ⟨"deny", some "custom reason", none⟩ "t1").2.woken
      = some ⟨"deny", some "tu8", none, some "custom reason"⟩) :=
  ⟨(deny_message_default_or_verbatim ⟨[], [], true⟩
      (createPermissionAttention "attn_8" "t0" "s1" "Edit" (some "x") "tu8") none "t1").1,
   (deny_message_default_or_verbatim ⟨[], [], true⟩
      (createPermissionAttention "attn_8" "t0" "s1" "Edit" (some "x") "tu8") none "t1").2.1,
   (deny_message_default_or_verbatim ⟨[], [], true⟩
      (createPermissionAttention "attn_8" "t0" "s1" "Edit" (some "x") "tu8") none "t1").2.2
     "custom reason" (by decide)⟩

/-- Concrete instantiation of the C10 (amended) theorem at behavior
`allowAlways`. -/
theorem other_behavior_witness :
    (resolve (waitForResolution (add ⟨[], [], true⟩
        (createPermissionAttention "attn_9" "t0" "s1" "Bash" (some "ls") "tu9")) "attn_9")
      "attn_9" ⟨"allowAlways", none, none⟩ "t1").2.woken
      = some ⟨"allowAlways", some "tu9", none, none⟩ :=
  other_behavior_payload_minimal ⟨[], [], true⟩ "attn_9" "t0" "s1" "Bash" (some "ls") "tu9"
    "allowAlways" none none "t1" (by decide) (by decide)

/-- Concrete instantiation of the C8 theorem: two concurrent runs `runA`
and `runB`, each with one pending attention item; run A is torn down. -/
theorem clear_frame_witness :
    (sysClearForSession ⟨[("runA", ⟨"runA", 1⟩), ("runB", ⟨"runB", 2⟩)],
        ⟨[("a1", createPermissionAttention "a1" "t" "runA" "Edit" none "tuA"),
          ("b1", createPermissionAttention "b1" "t" "runB" "Edit" none "tuB")],
         ["a1", "b1"], true⟩⟩ "runA").2 = ⟨[], [], []⟩ ∧
    (sysClearForSession ⟨[("runA", ⟨"runA", 1⟩), ("runB", ⟨"runB", 2⟩)],
        ⟨[("a1", createPermissionAttention "a1" "t" "runA" "Edit" none "tuA"),
          ("b1", createPermissionAttention "b1" "t" "runB" "Edit" none "tuB")],
         ["a1", "b1"], true⟩⟩ "runA").1.queries
      = [("runA", ⟨"runA", 1⟩), ("runB", ⟨"runB", 2⟩)] ∧
    (sysClearForSession ⟨[("runA", ⟨"runA", 1⟩), ("runB", ⟨"runB", 2⟩)],
        ⟨[("a1", createPermissionAttention "a1" "t" "runA" "Edit" none "tuA"),
          ("b1", createPermissionAttention "b1" "t" "runB" "Edit" none "tuB")],
         ["a1", "b1"], true⟩⟩ "runA").1.aman.pending
      = [("b1", createPermissionAttention "b1" "t" "runB" "Edit" none "tuB")] ∧
    mget (sysInterrupt ⟨[("runA", ⟨"runA", 1⟩), ("runB", ⟨"runB", 2⟩)],
        ⟨[("a1", createPermissionAttention "a1" "t" "runA" "Edit" none "tuA"),
          ("b1", createPermissionAttention "b1" "t" "runB" "Edit" none "tuB")],
         ["a1", "b1"], true⟩⟩ "runA").1.queries "runB" = some ⟨"runB", 2⟩ ∧
    (sysInterrupt ⟨[("runA", ⟨"runA", 1⟩), ("runB", ⟨"runB", 2⟩)],
        ⟨[("a1", createPermissionAttention "a1" "t" "runA" "Edit" none "tuA"),
          ("b1", createPermissionAttention "b1" "t" "runB" "Edit" none "tuB")],
         ["a1", "b1"], true⟩⟩ "runA").1.aman
      = ⟨[("a1", createPermissionAttention "a1" "t" "runA" "Edit" none "tuA"),
          ("b1", createPermissionAttention "b1" "t" "runB" "Edit" none "tuB")],
         ["a1", "b1"], true⟩ :=
  ⟨(clear_and_interrupt_touch_only_their_run _ "runA").1,
   (clear_and_interrupt_touch_only_their_run _ "runA").2.1,
   ((clear_and_interrupt_touch_only_their_run _ "runA").2.2.1).trans (by rfl),
   ((clear_and_interrupt_touch_only_their_run _ "runA").2.2.2.2.1 "runB" (by decide)).trans
     (by rfl),
   (clear_and_interrupt_touch_only_their_run _ "runA").2.2.2.2.2⟩

end Claudekeeper
